import Mathlib

/-!
A verification development for the `crm-automator` EML-ingestion pipeline
(`src/eml/eml_automator.py`, `src/eml/intelligence.py`, `src/eml/persistence.py`).

Each Python component relevant to the checked claims is shallowly embedded:
pure control flow becomes Lean functions, remote collaborators (CRM, oracle)
become explicit parameters/oracles, Python exceptions become `Except PyErr`,
and Python truthiness is modelled explicitly where the source relies on it.
-/

/-- Python exception kinds raised (uncaught) by the embedded code paths. -/
inductive PyErr
  | typeError
  | attributeError
  | indexError
deriving DecidableEq, Repr

/-- Python truthiness of an optional string: `None` and `""` are falsy. -/
def strTruthy : Option String → Bool
  | none => false
  | some s => !s.isEmpty

/-- Python truthiness of an optional int id (`None` and `0` are falsy):
used where the code writes `if not primary_contact_id:` etc. on ids. -/
def idTruthy : Option Nat → Bool
  | none => false
  | some n => n != 0

/-- Character-list test: does `s` start with `pat`? -/
def charsStartWith : List Char → List Char → Bool
  | _, [] => true
  | [], _ :: _ => false
  | c :: cs, d :: ds => c == d && charsStartWith cs ds

/-- Character-list test: does `pat` occur contiguously in `s`? -/
def charsContain : List Char → List Char → Bool
  | [], pat => pat.isEmpty
  | c :: cs, pat => charsStartWith (c :: cs) pat || charsContain cs pat

/-- Python's `pat in s` substring test. -/
def containsSub (s pat : String) : Bool :=
  charsContain s.data pat.data

/-- Split a character list on a separator (Python `str.split(sep)` shape:
always at least one group, empty groups preserved). -/
def splitOnOneChar (sep : Char) : List Char → List (List Char)
  | [] => [[]]
  | c :: cs =>
    if c == sep then [] :: splitOnOneChar sep cs
    else
      match splitOnOneChar sep cs with
      | [] => [[c]]
      | g :: gs => (c :: g) :: gs

/-! ## Message Parser: the multipart walk (`EMLProcessor.parse_eml`, lines 62-83)

A `MimePart` is the view the walk takes of one MIME part: its content type, the
stringified Content-Disposition header (`str(part.get("Content-Disposition"))`,
which is `"None"` when absent), the optional filename, and the decoded payload
(`get_payload(decode=True)` then `.decode(charset, errors='ignore')`; `none`
when the payload is `None`; decoding never raises). -/
structure MimePart where
  contentType : String
  disposition : String
  filename : Option String
  payload : Option String
deriving DecidableEq, Repr

/-- One iteration of the `for part in msg.walk()` loop (lines 63-83):
any filename is appended to the attachment list; if the disposition does not
contain `"attachment"` and the payload is non-empty, a `text/plain` part
overwrites `body` and a `text/html` part overwrites `html_body`. -/
def walkStep (acc : String × String × List String) (p : MimePart) :
    String × String × List String :=
  let body := acc.1
  let html_body := acc.2.1
  let atts := match p.filename with
    | some f => acc.2.2 ++ [f]
    | none => acc.2.2
  if containsSub p.disposition "attachment" then (body, html_body, atts)
  else
    match p.payload with
    | none => (body, html_body, atts)
    | some pay =>
      if pay.isEmpty then (body, html_body, atts)
      else if p.contentType == "text/plain" then (pay, html_body, atts)
      else if p.contentType == "text/html" then (body, pay, atts)
      else (body, html_body, atts)

/-- The whole multipart walk: fold of `walkStep` over the parts in walk order,
starting from `body = ""`, `html_body = ""`, no attachments. -/
def parseMultipart (parts : List MimePart) : String × String × List String :=
  parts.foldl walkStep ("", "", [])

/-- A part is eligible to set the plain body: not disposition-marked as an
attachment, non-empty decodable payload, content type `text/plain`. -/
def eligPlain (p : MimePart) : Bool :=
  !containsSub p.disposition "attachment" && strTruthy p.payload
    && p.contentType == "text/plain"

/-- A part is eligible to set the HTML body (same gate, `text/html`). -/
def eligHtml (p : MimePart) : Bool :=
  !containsSub p.disposition "attachment" && strTruthy p.payload
    && p.contentType == "text/html"

/-- The payload of the last `pred`-eligible part, or `dflt` if none. -/
def lastEligiblePayload (pred : MimePart → Bool) (parts : List MimePart) (dflt : String) :
    String :=
  match (parts.filter pred).getLast? with
  | some p => p.payload.getD ""
  | none => dflt

/-! ## Participant extraction (`EMLProcessor.process`, lines 127-139)

`getaddresses` results are taken as given ((name, addr) pairs); the code indexes
`getaddresses([headers.get("From", "")])[0]`, which raises `IndexError` on an
empty result. Then To/Cc/Bcc addresses are appended and the list is
deduplicated by address, first occurrence wins, empty addresses dropped. -/

/-- Deduplication loop (lines 134-139): keep a pair iff its address is
non-empty and not seen before. -/
def dedupByAddr (raw : List (String × String)) : List (String × String) :=
  (raw.foldl
    (fun acc p =>
      if p.2 != "" && !acc.2.contains p.2 then (acc.1 ++ [p], acc.2 ++ [p.2])
      else acc)
    ([], [])).1

/-- Lines 128-139: sender is the first `From` address (`[0]` indexing — raises
`IndexError` if `From` yields no addresses), then To/Cc/Bcc addresses are
appended and the whole list deduplicated by address. Returns (sender,
participants). -/
def parseParticipants (fromAddrs toAddrs ccAddrs bccAddrs : List (String × String)) :
    Except PyErr ((String × String) × List (String × String)) :=
  match fromAddrs with
  | [] => .error .indexError
  | sender :: _ =>
    .ok (sender, dedupByAddr ([sender] ++ toAddrs ++ ccAddrs ++ bccAddrs))

/-! ## The intelligence-gateway call site (line 123) vs the gateway signature

`IntelligenceLayer.analyze_text` (intelligence.py line 98) is declared as
`def analyze_text(self, text, context_date="Unknown")`: its keyword-bindable
parameter names (besides `self`) are exactly `text` and `context_date`.
The pipeline calls it as
`self.ai.analyze_text(body, context_date=..., metadata=metadata)`
(eml_automator.py line 123). Python raises `TypeError` at the call when a
keyword argument does not match any declared parameter. -/

/-- Parameter names of `IntelligenceLayer.analyze_text` (intelligence.py:98),
`self` omitted. -/
def analyzeTextParamNames : List String := ["text", "context_date"]

/-- Keyword-argument names used at the call site (eml_automator.py:123). -/
def processCallKwargNames : List String := ["context_date", "metadata"]

/-- Python keyword binding (no `**kwargs` in the callee): succeeds iff every
keyword name matches a declared parameter, else raises `TypeError`. -/
def pyBindKwargs (params kwargs : List String) : Except PyErr Unit :=
  if kwargs.all (fun k => params.contains k) then .ok () else .error .typeError

/-! ## Idempotency gate and run outcome (`process` lines 105-123,
`PersistenceLayer.is_already_processed` lines 32-46)

The ledger is modelled as the list of recorded resource ids. Observable remote
events of a run are oracle calls, CRM calls and ledger marks. -/

/-- `PersistenceLayer.is_already_processed`: falsy id (missing Message-ID) is
never processed; otherwise a key-existence lookup. -/
def isAlreadyProcessed (ledger : List String) (resourceId : String) : Bool :=
  if resourceId == "" then false else ledger.contains resourceId

/-- Remote-visible events of one run. -/
inductive RunEvent
  | oracleCall
  | crmCall
  | ledgerMark (messageId : String)
deriving DecidableEq, Repr

/-- The head of `EMLProcessor.process` after parsing (lines 105-123): with
`not force and is_already_processed(message_id)` the run returns at once with
no remote events (lines 109-111). Otherwise control reaches line 123, where
`analyze_text` is invoked with the keyword `metadata` that its signature does
not declare, so the call raises `TypeError` before any oracle transport call
is made, and no event is emitted either. -/
def processRun (ledger : List String) (force : Bool) (messageId : String) :
    List RunEvent × Except PyErr Unit :=
  if !force && isAlreadyProcessed ledger messageId then ([], .ok ())
  else
    match pyBindKwargs analyzeTextParamNames processCallKwargNames with
    | .error e => ([], .error e)
    | .ok _ => ([RunEvent.oracleCall], .ok ())

/-! ## The oracle data model (`intelligence.py` lines 14-82)

These structures mirror the pydantic models. Pydantic `Literal[...]` string
enums are modelled as strings; `Optional[int]` as `Option Int`;
`Optional[Dict[str, str]]` as `Option (List (String × String))`. Attribute
access on a pydantic model for a name that is not a declared field raises
`AttributeError`; the declared field names of each model are recorded as a
list so that such accesses can be settled by membership. -/

/-- `SenderInfo` (intelligence.py lines 66-72). -/
structure SenderInfo where
  phone : Option String
  title : Option String
  company : Option String
  background : Option String
  linkedin_url : Option String
  gender : Option String
deriving DecidableEq, Repr

/-- The declared field names of `SenderInfo` (intelligence.py lines 66-72):
note there is no `email` field. -/
def SenderInfo.fieldNames : List String :=
  ["phone", "title", "company", "background", "linkedin_url", "gender"]

/-- `ExtractedTask` (intelligence.py lines 53-57). -/
structure ExtractedTask where
  description : String
  due_date : Option String
  priority : String
  status : String
deriving DecidableEq, Repr

/-- `DealInfo` (intelligence.py lines 59-64); the float `amount` is carried
opaquely as an optional integer number of currency units — the pipeline only
passes it through (`amount or 0`), never computes with it. -/
structure DealInfo where
  name : String
  amount : Option Int
  stage : String
  description : Option String
  category : Option String
deriving DecidableEq, Repr

/-- `CompanyDetails` (intelligence.py lines 24-51): all declared fields in
declaration order. `name` is a required `str`; the `Literal` enums are
strings; the two `Dict` fields are association lists. -/
structure CompanyDetails where
  name : String
  sector : Option String
  size : Option Int
  revenue : Option String
  description : Option String
  website : Option String
  linkedin_url : Option String
  address : Option String
  city : Option String
  stateAbbr : Option String
  zipcode : Option String
  country : Option String
  phone_number : Option String
  tax_identifier : Option String
  lifecycle_stage : Option String
  company_type : Option String
  industry : Option String
  employee_count : Option Int
  founded_year : Option Int
  social_profiles : Option (List (String × String))
  logo_url : Option String
  context_links : Option (List (String × String))
  external_heartbeat_status : Option String
  internal_heartbeat_status : Option String
  email : Option String
deriving DecidableEq, Repr

/-- `AnalysisResult` (intelligence.py lines 74-82). -/
structure AnalysisResult where
  summary : String
  sentiment : String
  intent : String
  sender_info : SenderInfo
  company_details : Option CompanyDetails
  company_search_query : Option String
  suggested_tasks : List ExtractedTask
  deal_info : Option DealInfo
deriving DecidableEq, Repr

/-- The declared field names of `AnalysisResult` (intelligence.py lines
74-82): note there is neither an `other_contacts` nor a
`primary_contact_email` field. -/
def AnalysisResult.fieldNames : List String :=
  ["summary", "sentiment", "intent", "sender_info", "company_details",
   "company_search_query", "suggested_tasks", "deal_info"]

/-! ## Extraction map (`process` lines 143-153)

```
extracted_info_map = {}
if analysis:
    if analysis.sender_info.email:          # line 147
        extracted_info_map[analysis.sender_info.email.lower()] = analysis.sender_info
    for other in analysis.other_contacts:   # line 151
        ...
```
`SenderInfo` declares no `email` field and `AnalysisResult` declares no
`other_contacts` field, so with a non-null analysis line 147 raises
`AttributeError` before any entry is inserted. -/

/-- The extraction-map builder of lines 143-153, as an association list keyed
by lower-cased email. The `then` branch (the would-be insertion path, taken
only if `SenderInfo` declared an `email` field) is unreachable. -/
def buildExtractionMap (analysis : Option AnalysisResult) :
    Except PyErr (List (String × SenderInfo)) :=
  match analysis with
  | none => .ok []
  | some a =>
    if SenderInfo.fieldNames.contains "email" then
      .ok [("", a.sender_info)]
    else .error .attributeError

/-! ## Primary-contact selection (`process` lines 246-264)

Step 1 evaluates `analysis and analysis.primary_contact_email` (line 249):
with a non-null analysis this reads an attribute `AnalysisResult` does not
declare, raising `AttributeError`. Steps 2 and 3 (lines 257-264) pick the
first resolved contact whose email differs from the sender's raw address,
falling back to `resolved_contacts[0][1]`. Python `if not primary_contact_id`
treats both `None` and `0` as unset (`idTruthy`). -/

/-- Steps 2-3 of primary-contact selection given the step-1 hint result. -/
def selectAfterHint (hint : Option Nat) (resolved : List (String × Nat))
    (senderEmail : String) : Except PyErr Nat :=
  let pc := hint
  let pc := if idTruthy pc then pc
    else (resolved.find? (fun p => p.1 != senderEmail)).map Prod.snd
  if idTruthy pc then .ok (pc.getD 0)
  else
    match resolved with
    | [] => .error .indexError
    | p :: _ => .ok p.2

/-- The whole selector (lines 246-264). With `analysis` non-null, line 249
reads `analysis.primary_contact_email`, a field `AnalysisResult` does not
declare — the membership test is decidably false so the read raises
`AttributeError` (the `then` branch is unreachable). With `analysis` null,
the hint is skipped and steps 2-3 run. -/
def selectPrimaryContact (analysis : Option AnalysisResult)
    (resolved : List (String × Nat)) (senderEmail : String) : Except PyErr Nat :=
  match analysis with
  | some _ =>
    if AnalysisResult.fieldNames.contains "primary_contact_email" then
      selectAfterHint none resolved senderEmail
    else .error .attributeError
  | none => selectAfterHint none resolved senderEmail

/-! ## Company resolution with the per-run domain cache
(`process` lines 160-208, company part)

The loop iterates participants in encounter order. For each, the domain is
`email_addr.split("@")[-1] if "@" in email_addr else ""`; internal
participants (domain or exact address in the configured internal lists) are
skipped entirely. The company block (lines 197-208) consults the per-run
`company_cache` keyed by domain, calls `crm.upsert_company` on a miss, and
caches the returned id only when it is non-null. The first non-null id
becomes `primary_company_id`.

The CRM collaborator is an oracle `crm : Nat → String → Option Nat` from
(call index, domain) to the returned company id; call arguments that cannot
change whether a call occurs (company name and filtered facts) are not
tracked. This def models the loop for a run whose analysis is null (no
enrichment and no per-participant facts are reachable then). -/

/-- Python `str.lower()`, character by character. -/
def strLower (s : String) : String :=
  String.mk (s.data.map Char.toLower)

/-- Domain of an address (line 162):
`email_addr.split("@")[-1] if "@" in email_addr else ""` — the text after the
last `@`, empty when no `@` occurs. -/
def domainOf (emailAddr : String) : String :=
  if containsSub emailAddr "@" then
    String.mk ((splitOnOneChar '@' emailAddr.data).getLastD [])
  else ""

/-- State of the company-resolution fold: the per-run domain cache, the trace
of CRM company calls (domain, returned id), and the candidate primary
company. -/
structure CompanyResState where
  cache : List (String × Nat)
  calls : List (String × Option Nat)
  primary : Option Nat
deriving DecidableEq, Repr

/-- One participant's company-resolution step (lines 160-208, company part):
internal participants are skipped; an empty domain never calls; a cache hit
takes the cached id without a call (and, per lines 207-208, makes a truthy id
the primary when none is set yet); a cache miss calls the CRM, caching the
returned id only when it is Python-truthy — `if company_id:` at line 204, so
a null result AND an id of 0 are both left uncached — and a truthy id becomes
the primary when none is set (lines 207-208). -/
def companyStep (crm : Nat → String → Option Nat)
    (internalDomains internalEmails : List String)
    (st : CompanyResState) (emailAddr : String) : CompanyResState :=
  let emailLower := strLower emailAddr
  let domain := domainOf emailAddr
  let isInternal := internalDomains.contains (strLower domain)
    || internalEmails.contains emailLower
  if isInternal then st
  else if domain == "" then st
  else
    match st.cache.lookup domain with
    | some cid =>
      let primary := if cid != 0 && !idTruthy st.primary then some cid
        else st.primary
      { st with primary := primary }
    | none =>
      let resp := crm st.calls.length domain
      let cache := match resp with
        | some cid => if cid != 0 then (domain, cid) :: st.cache else st.cache
        | none => st.cache
      let primary := if idTruthy resp && !idTruthy st.primary then resp
        else st.primary
      { cache := cache, calls := st.calls ++ [(domain, resp)], primary := primary }

/-- The company-resolution part of the participant loop over all
participants' addresses, starting from the fresh per-run state. -/
def resolveCompanies (crm : Nat → String → Option Nat)
    (internalDomains internalEmails : List String)
    (emails : List String) : CompanyResState :=
  emails.foldl (companyStep crm internalDomains internalEmails)
    ⟨[], [], none⟩

/-! ## Enrichment merge (`process` lines 181-191)

```
if search_results:
    if not analysis.company_details:
        analysis.company_details = search_results
    else:
        for field in search_results.model_fields:
            if not getattr(analysis.company_details, field):
                setattr(analysis.company_details, field, getattr(search_results, field))
```
The loop iterates every declared field of `CompanyDetails`; a field whose
current value is Python-falsy (None, empty string, 0, empty dict) is replaced
by the enrichment value, a truthy field is kept. -/

/-- The declared fields of `CompanyDetails`, for quantifying over
`model_fields`. -/
inductive CompanyField
  | name | sector | size | revenue | description | website | linkedin_url
  | address | city | stateAbbr | zipcode | country | phone_number
  | tax_identifier | lifecycle_stage | company_type | industry
  | employee_count | founded_year | social_profiles | logo_url
  | context_links | external_heartbeat_status | internal_heartbeat_status
  | email
deriving DecidableEq, Repr

/-- A Python field value as seen by truthiness: a string, an int, or a dict. -/
inductive PyLit
  | s (v : String)
  | i (v : Int)
  | d (v : List (String × String))
deriving DecidableEq, Repr

/-- Python truthiness of a field value (`not getattr(...)` is the negation):
empty string, zero and empty dict are falsy. -/
def PyLit.truthy : PyLit → Bool
  | .s v => !v.isEmpty
  | .i v => v != 0
  | .d v => !v.isEmpty

/-- Truthiness of an optional field value (`None` is falsy). -/
def fvTruthy : Option PyLit → Bool
  | none => false
  | some l => l.truthy

/-- `getattr` on a `CompanyDetails` for each declared field, as the common
value view. -/
def getField (c : CompanyDetails) : CompanyField → Option PyLit
  | .name => some (.s c.name)
  | .sector => c.sector.map .s
  | .size => c.size.map .i
  | .revenue => c.revenue.map .s
  | .description => c.description.map .s
  | .website => c.website.map .s
  | .linkedin_url => c.linkedin_url.map .s
  | .address => c.address.map .s
  | .city => c.city.map .s
  | .stateAbbr => c.stateAbbr.map .s
  | .zipcode => c.zipcode.map .s
  | .country => c.country.map .s
  | .phone_number => c.phone_number.map .s
  | .tax_identifier => c.tax_identifier.map .s
  | .lifecycle_stage => c.lifecycle_stage.map .s
  | .company_type => c.company_type.map .s
  | .industry => c.industry.map .s
  | .employee_count => c.employee_count.map .i
  | .founded_year => c.founded_year.map .i
  | .social_profiles => c.social_profiles.map .d
  | .logo_url => c.logo_url.map .s
  | .context_links => c.context_links.map .d
  | .external_heartbeat_status => c.external_heartbeat_status.map .s
  | .internal_heartbeat_status => c.internal_heartbeat_status.map .s
  | .email => c.email.map .s

/-- Keep the current string field if truthy, else take the enrichment one. -/
def fillStr (cur enr : Option String) : Option String :=
  if strTruthy cur then cur else enr

/-- Keep the current int field if truthy (non-`None`, non-zero), else take
the enrichment one. -/
def fillInt (cur enr : Option Int) : Option Int :=
  match cur with
  | some v => if v != 0 then cur else enr
  | none => enr

/-- Keep the current dict field if truthy (non-`None`, non-empty), else take
the enrichment one. -/
def fillDict (cur enr : Option (List (String × String))) :
    Option (List (String × String)) :=
  match cur with
  | some v => if !v.isEmpty then cur else enr
  | none => enr

/-- The `for field in search_results.model_fields` loop of lines 189-191,
over every declared field of `CompanyDetails`: a Python-falsy current value
is replaced by the enrichment value, a truthy one kept. `name` is a required
`str` whose truthiness is non-emptiness. -/
def mergeFill (d sr : CompanyDetails) : CompanyDetails :=
  { name := if !d.name.isEmpty then d.name else sr.name
    sector := fillStr d.sector sr.sector
    size := fillInt d.size sr.size
    revenue := fillStr d.revenue sr.revenue
    description := fillStr d.description sr.description
    website := fillStr d.website sr.website
    linkedin_url := fillStr d.linkedin_url sr.linkedin_url
    address := fillStr d.address sr.address
    city := fillStr d.city sr.city
    stateAbbr := fillStr d.stateAbbr sr.stateAbbr
    zipcode := fillStr d.zipcode sr.zipcode
    country := fillStr d.country sr.country
    phone_number := fillStr d.phone_number sr.phone_number
    tax_identifier := fillStr d.tax_identifier sr.tax_identifier
    lifecycle_stage := fillStr d.lifecycle_stage sr.lifecycle_stage
    company_type := fillStr d.company_type sr.company_type
    industry := fillStr d.industry sr.industry
    employee_count := fillInt d.employee_count sr.employee_count
    founded_year := fillInt d.founded_year sr.founded_year
    social_profiles := fillDict d.social_profiles sr.social_profiles
    logo_url := fillStr d.logo_url sr.logo_url
    context_links := fillDict d.context_links sr.context_links
    external_heartbeat_status :=
      fillStr d.external_heartbeat_status sr.external_heartbeat_status
    internal_heartbeat_status :=
      fillStr d.internal_heartbeat_status sr.internal_heartbeat_status
    email := fillStr d.email sr.email }

/-- Lines 185-191 wrapped: with no search results nothing changes; with
results and no current `company_details` the results are assigned wholesale;
otherwise the fill-only-empty merge runs. -/
def enrichCompanyDetails (current searchResults : Option CompanyDetails) :
    Option CompanyDetails :=
  match searchResults with
  | none => current
  | some sr =>
    match current with
    | none => some sr
    | some d => some (mergeFill d sr)

/-! ## Activity notes and the single attachment upload
(`process` lines 280-343, company note lines 345-365)

The loop enumerates the resolved contact ids. Only at `idx == 0`, and only
when the raw file bytes were read, is the message uploaded (multipart
`files=` payload) via `log_activity_with_response`; the attachment URL is
extracted from that one response (lines 328-331). Every later note either
reuses that URL in an `attachments` reference (lines 334-339) or, when none
is available, is created without any attachment (line 343). -/

/-- The slice of a `log_activity_with_response` result that the URL
extraction reads: the success flag, whether `response_data` and
`response_data.get("data")` are truthy, and the `src` of each entry of
`data.get("attachments", [])`. -/
structure ActivityResp where
  success : Bool
  hasData : Bool
  attachmentSrcs : List (Option String)
deriving DecidableEq, Repr

/-- Lines 328-331: `eml_attachment_url` is the `src` of the first attachment
of the response data, provided the call succeeded and the data is present. -/
def extractUrl (r : ActivityResp) : Option String :=
  if r.success && r.hasData then
    match r.attachmentSrcs with
    | [] => none
    | s :: _ => s
  else none

/-- One observable note-creation effect. -/
inductive NoteEffect
  | uploadNote (contactId : Nat)
  | urlNote (contactId : Nat) (url : String)
  | plainNote (contactId : Nat)
  | companyNote (companyId : Nat) (url : String)
deriving DecidableEq, Repr

/-- Whether an effect is the multipart upload of the raw message bytes. -/
def NoteEffect.isUpload : NoteEffect → Bool
  | .uploadNote _ => true
  | _ => false

/-- The `for idx, contact_id in enumerate(all_contact_ids)` loop of lines
290-343: at `idx == 0` with file bytes available the note carries the
multipart `files` payload and the URL is extracted from the response;
otherwise the note reuses `eml_attachment_url` when set, and is plain when
not. Returns the effects in order and the final `eml_attachment_url`. -/
def notesLoop (fileContent : Option String) (firstResp : ActivityResp) :
    Nat → Option String → List Nat → List NoteEffect × Option String
  | _, url, [] => ([], url)
  | idx, url, c :: rest =>
    if idx == 0 && fileContent.isSome then
      let url := extractUrl firstResp
      let r := notesLoop fileContent firstResp (idx + 1) url rest
      (NoteEffect.uploadNote c :: r.1, r.2)
    else
      match url with
      | some u =>
        let r := notesLoop fileContent firstResp (idx + 1) url rest
        (NoteEffect.urlNote c u :: r.1, r.2)
      | none =>
        let r := notesLoop fileContent firstResp (idx + 1) url rest
        (NoteEffect.plainNote c :: r.1, r.2)

/-- The whole note-creation pass: the loop from index 0 with
`eml_attachment_url = None` (line 281). -/
def createNotes (fileContent : Option String) (firstResp : ActivityResp)
    (contactIds : List Nat) : List NoteEffect × Option String :=
  notesLoop fileContent firstResp 0 none contactIds

/-- Lines 345-365: the optional company-level note, created only when a
primary company, a non-null analysis and the extracted attachment URL are all
present; it references the same URL by value. -/
def companyNoteEffs (primaryCompanyId : Option Nat) (analysisPresent : Bool)
    (url : Option String) : List NoteEffect :=
  match primaryCompanyId, url with
  | some pcid, some u =>
    if pcid != 0 && analysisPresent then [NoteEffect.companyNote pcid u]
    else []
  | _, _ => []

/-! ## Follow-up generation and the ledger mark (`process` lines 367-385)

```
if primary_contact_id and analysis and analysis.suggested_tasks:
    for task in analysis.suggested_tasks: ...create_task...
if analysis and analysis.deal_info and analysis.intent in ["Sales", "Demo"] and primary_company_id:
    ...create_deal(...)
    self.db.mark_as_processed(message_id)   # line 384 — indented INSIDE the deal branch
```
Note the indentation of line 384 in the source: `mark_as_processed` is inside
the deal `if` block, so the ledger is marked only on runs that create a deal. -/

/-- Observable effects of the follow-up tail. -/
inductive TailEffect
  | createTask (contactId : Nat) (description : String)
  | createDeal (companyId : Nat) (contactIds : List Nat) (name : String)
  | markLedger (messageId : String)
deriving DecidableEq, Repr

/-- `PersistenceLayer.mark_as_processed` (persistence.py lines 48-54): a
falsy resource id is never recorded; otherwise the mark is inserted. -/
def markAsProcessed (messageId : String) : List TailEffect :=
  if messageId == "" then [] else [TailEffect.markLedger messageId]

/-- The follow-up tail (lines 367-385), faithful to the source's indentation:
task creation for the primary contact when analysis suggested tasks; deal
creation when analysis has deal facts, a sales intent and a primary company —
and the ledger mark is emitted only inside that deal branch. -/
def followupTail (analysis : Option AnalysisResult)
    (primaryContactId : Option Nat) (primaryCompanyId : Option Nat)
    (resolvedCids : List Nat) (messageId : String) : List TailEffect :=
  let taskEffs :=
    match analysis with
    | some a =>
      if idTruthy primaryContactId && !a.suggested_tasks.isEmpty then
        a.suggested_tasks.map
          (fun t => TailEffect.createTask (primaryContactId.getD 0) t.description)
      else []
    | none => []
  let dealEffs :=
    match analysis with
    | some a =>
      match a.deal_info with
      | some di =>
        if (a.intent == "Sales" || a.intent == "Demo")
            && idTruthy primaryCompanyId then
          TailEffect.createDeal (primaryCompanyId.getD 0) resolvedCids di.name
            :: markAsProcessed messageId
        else []
      | none => []
    | none => []
  taskEffs ++ dealEffs

/-! ## Claim theorems -/

/-- C1: the claim says every run completing the follow-up step without
raising — including null-analysis runs such as Scenario B — marks the
Message-ID in the ledger. The code's `mark_as_processed` call (line 384)
is indented inside the deal-creation branch, so a run whose analysis is null
completes the follow-up tail with no effects at all and in particular no
ledger mark: the tail is empty for every choice of primary contact, primary
company, resolved contacts and message id. -/
theorem c1_null_analysis_never_marks (pc pco : Option Nat) (cids : List Nat)
    (mid : String) : followupTail none pc pco cids mid = [] := by
  simp [followupTail]

/-- C2: the pipeline invokes `analyze_text` with the keyword argument
`metadata` (line 123), but `IntelligenceLayer.analyze_text` declares only
`text` and `context_date` (intelligence.py:98); Python keyword binding
therefore raises `TypeError` at the call site — before the gateway's own
`try/except` can turn failures into `None` — so a fresh message's run aborts
with an uncaught error instead of proceeding with a null analysis. -/
theorem c2_metadata_kwarg_type_error :
    pyBindKwargs analyzeTextParamNames processCallKwargNames
        = Except.error PyErr.typeError
      ∧ processRun [] false "<msg-1@example.com>"
        = ([], Except.error PyErr.typeError) := by
  exact ⟨rfl, rfl⟩

/-- C3: a message whose Message-ID is already recorded in the ledger is, with
`force = false`, skipped right after parsing: the run ends cleanly having
made no oracle call, no CRM call and no ledger mark. -/
theorem c3_duplicate_is_noop (ledger : List String) (mid : String)
    (hmid : ¬ mid = "") (hmem : mid ∈ ledger) :
    processRun ledger false mid = ([], Except.ok ()) := by
  simp [processRun, isAlreadyProcessed, hmid, hmem]

/-- C3 witness: a concrete ledger holding the message id. -/
theorem c3_duplicate_is_noop_witness :
    processRun ["<a@x>", "<b@y>"] false "<a@x>" = ([], Except.ok ()) :=
  c3_duplicate_is_noop ["<a@x>", "<b@y>"] "<a@x>" (by decide) (by decide)

/-- C4: the claim says the selector deterministically picks a primary contact
by the three-step priority and fails only on an empty resolved list. In the
code, step (1) reads `analysis.primary_contact_email` (line 249), a field
`AnalysisResult` (intelligence.py:74-82) does not declare, so whenever the
analysis is non-null the selector raises `AttributeError` — even on a
non-empty resolved list. -/
theorem c4_selector_attribute_error (a : AnalysisResult)
    (resolved : List (String × Nat)) (senderEmail : String) :
    selectPrimaryContact (some a) resolved senderEmail
      = Except.error PyErr.attributeError := by
  simp [selectPrimaryContact, AnalysisResult.fieldNames]

/-- C7: the claim says the resolver builds an extraction map keyed by
lower-cased email from the sender's facts and each "other contacts" entry.
The code reads `analysis.sender_info.email` (line 147) and
`analysis.other_contacts` (line 151), but `SenderInfo` (intelligence.py:66-72)
declares no `email` field and `AnalysisResult` no `other_contacts` field, so
with any non-null analysis the map construction raises `AttributeError`
before inserting a single entry. -/
theorem c7_extraction_map_attribute_error (a : AnalysisResult) :
    buildExtractionMap (some a) = Except.error PyErr.attributeError := by
  simp [buildExtractionMap, SenderInfo.fieldNames]

/-- C10: when the `From` header yields no parseable address
(`getaddresses` returns an empty list), the sender extraction
`getaddresses([headers.get("From", "")])[0]` (line 129) raises `IndexError`;
no handler exists in `process`, so the run aborts even though parsing
succeeded — for every combination of To/Cc/Bcc address lists. -/
theorem c10_empty_from_index_error (toA ccA bccA : List (String × String)) :
    parseParticipants [] toA ccA bccA = Except.error PyErr.indexError := rfl

/-- A two-part multipart message: two non-attachment `text/plain` parts with
different payloads (absent Content-Disposition stringifies to `"None"`). -/
def twoPlainParts : List MimePart :=
  [⟨"text/plain", "None", none, some "first part body"⟩,
   ⟨"text/plain", "None", none, some "second part body"⟩]

/-- C8 counterexample: the claim says the FIRST non-attachment `text/plain`
part becomes the plain body. On a message with two such parts the walk's
unconditional assignment (`body = decoded_payload`, line 79) makes the second
part win: the parsed plain body is the second payload, not the first. -/
theorem c8_counterexample :
    parseMultipart twoPlainParts = ("second part body", "", [])
      ∧ ("second part body" : String) ≠ "first part body" := by
  exact ⟨by decide, by decide⟩

/-- One walk iteration in closed form: an eligible `text/plain` part
overwrites the plain body, an eligible `text/html` part the HTML body, and
any filename is appended to the attachment list. -/
theorem walkStep_eq (acc : String × String × List String) (p : MimePart) :
    walkStep acc p =
      ((if eligPlain p then p.payload.getD "" else acc.1),
       (if eligHtml p then p.payload.getD "" else acc.2.1),
       acc.2.2 ++ p.filename.toList) := by
  rcases p with ⟨ct, disp, fn, pl⟩
  rcases acc with ⟨b, h, a⟩
  by_cases hd : containsSub disp "attachment"
  · cases pl <;> cases fn <;> simp [walkStep, eligPlain, eligHtml, hd]
  · cases pl with
    | none => cases fn <;> simp [walkStep, eligPlain, eligHtml, strTruthy, hd]
    | some pay =>
      by_cases he : pay.isEmpty
      · cases fn <;>
          simp [walkStep, eligPlain, eligHtml, strTruthy, hd, he]
      · by_cases hp : ct = "text/plain"
        · cases fn <;>
            simp [walkStep, eligPlain, eligHtml, strTruthy, hd, he, hp]
        · by_cases hh : ct = "text/html"
          · cases fn <;>
              simp [walkStep, eligPlain, eligHtml, strTruthy, hd, he, hp, hh]
          · cases fn <;>
              simp [walkStep, eligPlain, eligHtml, strTruthy, hd, he, hp, hh]

/-- Peeling one part off the last-eligible-payload computation: the head
part's payload becomes the new default when the head is eligible. -/
theorem lastEligiblePayload_cons (pred : MimePart → Bool) (p : MimePart)
    (ps : List MimePart) (dflt : String) :
    lastEligiblePayload pred (p :: ps) dflt =
      lastEligiblePayload pred ps (if pred p then p.payload.getD "" else dflt) := by
  unfold lastEligiblePayload
  by_cases hp : pred p
  · simp only [List.filter_cons, hp, if_true, List.getLast?_cons]
    cases hq : (ps.filter pred).getLast? with
    | none =>
      simp [List.getLastD_eq_getLast?, hq]
    | some q =>
      simp [List.getLastD_eq_getLast?, hq]
  · simp [List.filter_cons, hp]

/-- The walk fold from an arbitrary accumulator: the plain body is the last
eligible `text/plain` payload (defaulting to the accumulator's), likewise for
HTML, and the attachment list gains every filename in order. -/
theorem foldl_walkStep_eq (parts : List MimePart) :
    ∀ (b h : String) (a : List String),
      parts.foldl walkStep (b, h, a) =
        (lastEligiblePayload eligPlain parts b,
         lastEligiblePayload eligHtml parts h,
         a ++ parts.filterMap (fun p => p.filename)) := by
  induction parts with
  | nil => intro b h a; simp [lastEligiblePayload]
  | cons p ps ih =>
    intro b h a
    rw [List.foldl_cons, walkStep_eq, ih, lastEligiblePayload_cons,
      lastEligiblePayload_cons]
    cases hf : p.filename <;>
      simp [List.filterMap_cons, hf, Option.toList]

/-- C8 (amended): for every multipart message, the walk's unconditional
assignments make the LAST non-attachment `text/plain` part with a non-empty
decodable payload the plain body and the LAST such `text/html` part the HTML
body (empty when none qualifies), while every part carrying a filename is
added to the attachment list in walk order regardless of content type. -/
theorem c8_last_part_wins (parts : List MimePart) :
    parseMultipart parts =
      (lastEligiblePayload eligPlain parts "",
       lastEligiblePayload eligHtml parts "",
       parts.filterMap (fun p => p.filename)) := by
  unfold parseMultipart
  rw [foldl_walkStep_eq]
  simp

/-- From index 1 onward the notes loop never uploads again: every remaining
note reuses the url set at index 0 (or is plain when there is none), and the
url value never changes. -/
theorem notesLoop_succ (fc : Option String) (resp : ActivityResp)
    (l : List Nat) : ∀ (i : Nat) (url : Option String),
    notesLoop fc resp (i + 1) url l =
      (l.map (fun c =>
        match url with
        | some u => NoteEffect.urlNote c u
        | none => NoteEffect.plainNote c), url) := by
  induction l with
  | nil => intro i url; cases url <;> rfl
  | cons c rest ih =>
    intro i url
    cases url with
    | none => simp [notesLoop, ih]
    | some u => simp [notesLoop, ih]

/-- C5: in a run with raw message bytes available and at least one resolved
contact, the message is uploaded exactly once, as part of the first created
activity; every subsequent activity carries, by value, exactly the attachment
URL extracted from that single response — or no attachment when the upload
failed or yielded no reference — and the loop's final URL is that same
extracted value. The optional company-level note likewise embeds exactly the
URL it is handed (the loop's final URL), and is skipped when there is none. -/
theorem c5_single_upload_reuse (b : String) (resp : ActivityResp) (c0 : Nat)
    (rest : List Nat) (pcid : Nat) (ap : Bool) :
    createNotes (some b) resp (c0 :: rest) =
      (NoteEffect.uploadNote c0 ::
        rest.map (fun c =>
          match extractUrl resp with
          | some u => NoteEffect.urlNote c u
          | none => NoteEffect.plainNote c),
       extractUrl resp)
    ∧ companyNoteEffs (some pcid) ap (createNotes (some b) resp (c0 :: rest)).2 =
        (match extractUrl resp with
         | some u =>
           if pcid != 0 && ap then [NoteEffect.companyNote pcid u] else []
         | none => []) := by
  have hmain : createNotes (some b) resp (c0 :: rest) =
      (NoteEffect.uploadNote c0 ::
        rest.map (fun c =>
          match extractUrl resp with
          | some u => NoteEffect.urlNote c u
          | none => NoteEffect.plainNote c),
       extractUrl resp) := by
    unfold createNotes notesLoop
    simp [notesLoop_succ]
  refine ⟨hmain, ?_⟩
  rw [hmain]
  cases hu : extractUrl resp <;> simp [companyNoteEffs]

/-- C6 counterexample: the claim says at most one company create/lookup
round-trip occurs per distinct domain and every later same-domain participant
reuses the cached id. With a CRM whose company upsert fails (returns null),
nothing is cached (line 204-205 caches only truthy ids), so a second external
participant with the same domain triggers a second CRM call: two participants
at `acme.com` yield two round-trips for that one domain. -/
theorem c6_counterexample :
    (resolveCompanies (fun _ _ => none) [] []
        ["a@acme.com", "b@acme.com"]).calls
      = [("acme.com", none), ("acme.com", none)]
    ∧ ((resolveCompanies (fun _ _ => none) [] []
        ["a@acme.com", "b@acme.com"]).calls.countP
          (fun c => c.1 == "acme.com")) = 2 := by
  exact ⟨by decide, by decide⟩

/-- Cache soundness: every CRM company call that returned a Python-truthy id
(non-null and non-zero — exactly what `if company_id:` at line 204 caches)
left its domain in the per-run cache. -/
def CacheSound (st : CompanyResState) : Prop :=
  ∀ p ∈ st.calls, idTruthy p.2 = true → st.cache.lookup p.1 ≠ none

/-- The per-domain call discipline: any two company calls in trace order are
either for different domains, or the earlier one returned a Python-falsy
result (null, or an id of 0 — which line 204 declines to cache). -/
def CallDiscipline (calls : List (String × Option Nat)) : Prop :=
  calls.Pairwise (fun a b => a.1 ≠ b.1 ∨ idTruthy a.2 = false)

/-- One company-resolution step preserves cache soundness and the per-domain
call discipline. -/
theorem companyStep_inv (crm : Nat → String → Option Nat)
    (intD intE : List String) (st : CompanyResState) (e : String)
    (h1 : CacheSound st) (h2 : CallDiscipline st.calls) :
    CacheSound (companyStep crm intD intE st e)
      ∧ CallDiscipline (companyStep crm intD intE st e).calls := by
  unfold companyStep
  dsimp only
  split
  · exact ⟨h1, h2⟩
  · split
    · exact ⟨h1, h2⟩
    · split
      · exact ⟨h1, h2⟩
      · rename_i hmiss
        constructor
        · intro p hp hne
          simp only [List.mem_append, List.mem_singleton] at hp
          rcases hp with hp | hp
          · have hold := h1 p hp hne
            cases hresp : crm st.calls.length (domainOf e) with
            | none => simpa [hresp] using hold
            | some cid =>
              by_cases hc : (cid != 0) = true
              · simp only [hresp, hc, if_true, List.lookup]
                by_cases hde : (p.1 == domainOf e) = true
                · simp [hde]
                · simp only [hde]
                  simpa using hold
              · simp only [hresp, hc, if_false]
                simpa using hold
          · subst hp
            simp only at hne ⊢
            cases hresp : crm st.calls.length (domainOf e) with
            | none => simp [hresp, idTruthy] at hne
            | some cid =>
              rw [hresp] at hne
              simp only [idTruthy] at hne
              simp [hresp, hne, List.lookup]
        · unfold CallDiscipline at h2 ⊢
          simp only [List.pairwise_append, List.pairwise_singleton,
            List.mem_singleton, forall_eq]
          refine ⟨h2, trivial, ?_⟩
          intro a ha
          by_cases hdom : a.1 = domainOf e
          · right
            by_contra hsome
            rw [Bool.not_eq_false] at hsome
            have := h1 a ha hsome
            rw [hdom] at this
            exact this hmiss
          · left
            exact hdom

/-- Folding company resolution over any participant list preserves the
invariants. -/
theorem resolveCompanies_aux (crm : Nat → String → Option Nat)
    (intD intE : List String) : ∀ (emails : List String)
    (st : CompanyResState), CacheSound st → CallDiscipline st.calls →
    CacheSound (emails.foldl (companyStep crm intD intE) st)
      ∧ CallDiscipline (emails.foldl (companyStep crm intD intE) st).calls := by
  intro emails
  induction emails with
  | nil => intro st hs hd; exact ⟨hs, hd⟩
  | cons e rest ih =>
    intro st hs hd
    have hstep := companyStep_inv crm intD intE st e hs hd
    exact ih (companyStep crm intD intE st e) hstep.1 hstep.2

/-- C6 (amended): within one run, at most one company round-trip returning a
Python-truthy id occurs per distinct domain — once a CRM call for a domain
returns a non-null, non-zero id it is cached and no later call for that
domain is ever made, so in the call trace any two calls for the same domain
have a falsy (null or zero) earlier result; a falsy result is not cached
(`if company_id:`, line 204) and a later participant with the same domain
does trigger another CRM call. -/
theorem c6_one_success_per_domain (crm : Nat → String → Option Nat)
    (intD intE : List String) (emails : List String) :
    CallDiscipline (resolveCompanies crm intD intE emails).calls := by
  have h := resolveCompanies_aux crm intD intE emails ⟨[], [], none⟩
    (by intro p hp; simp at hp) (by simp [CallDiscipline])
  exact h.2

/-- A truthy optional-string field is kept by the fill. -/
theorem fillStr_of_truthy (cur enr : Option String)
    (h : fvTruthy (cur.map PyLit.s) = true) : fillStr cur enr = cur := by
  cases cur <;> simp_all [fillStr, fvTruthy, PyLit.truthy, strTruthy]

/-- A truthy optional-int field is kept by the fill. -/
theorem fillInt_of_truthy (cur enr : Option Int)
    (h : fvTruthy (cur.map PyLit.i) = true) : fillInt cur enr = cur := by
  cases cur <;> simp_all [fillInt, fvTruthy, PyLit.truthy]

/-- A truthy optional-dict field is kept by the fill. -/
theorem fillDict_of_truthy (cur enr : Option (List (String × String)))
    (h : fvTruthy (cur.map PyLit.d) = true) : fillDict cur enr = cur := by
  cases cur <;> simp_all [fillDict, fvTruthy, PyLit.truthy]

/-- C9: the enrichment merge is fill-only-empty — for every declared field of
the company facts, if the current (primary) company-facts value is truthy
(non-empty), the merge leaves it unchanged; enrichment values are copied only
into fields the primary facts lack. -/
theorem c9_fill_only_empty (d sr : CompanyDetails) (f : CompanyField)
    (h : fvTruthy (getField d f) = true) :
    getField (mergeFill d sr) f = getField d f := by
  cases f <;>
    simp only [getField, mergeFill] at h ⊢ <;>
      first
        | (rw [fillStr_of_truthy _ _ h])
        | (rw [fillInt_of_truthy _ _ h])
        | (rw [fillDict_of_truthy _ _ h])
        | (simp_all [fvTruthy, PyLit.truthy])

/-- A company-facts record with every field empty. -/
def cdEmpty : CompanyDetails :=
  ⟨"", none, none, none, none, none, none, none, none, none, none, none,
   none, none, none, none, none, none, none, none, none, none, none, none,
   none⟩

/-- Primary company facts with a non-empty sector. -/
def cdPrimary : CompanyDetails :=
  { cdEmpty with name := "Cyberdyne", sector := some "SaaS" }

/-- Enrichment result proposing a different sector and a new city. -/
def cdEnrichment : CompanyDetails :=
  { cdEmpty with sector := some "Robotics", city := some "Los Angeles" }

/-- C9 witness: on concrete facts whose sector is already set, the merge
keeps the primary sector. -/
theorem c9_fill_only_empty_witness :
    fvTruthy (getField cdPrimary CompanyField.sector) = true
      ∧ getField (mergeFill cdPrimary cdEnrichment) CompanyField.sector
        = getField cdPrimary CompanyField.sector :=
  ⟨by decide, c9_fill_only_empty cdPrimary cdEnrichment CompanyField.sector
    (by decide)⟩
